import Mathlib

/-!
Verification of the authentication/authorization core of the
Node_express_template repository.

The development shallowly embeds, in Lean, the code of
- src/services/auth.service.js   (register, login, getMe, updatePassword)
- src/services/user.service.js   (updateUser)
- src/repositories/user.repository.js (findById, findByEmail, update, ...)
- src/middlewares/auth.js        (requireAuth, requireRole)
- src/utils/jwt.js               (generateToken, verifyToken, decodeToken)

and states and proves the properties claimed of them.  The mongoose user
model file (src/models/user.model.js) is not present in the source tree —
only its documentation is — so its behaviour (bcrypt hashing hook,
comparePassword, the toJSON transform, schema validation) is modelled from
the specification, as marked on each such definition.  The jsonwebtoken
npm library is external; it is modelled as an abstract signed-token codec
following its documented semantics (signature checked first, then expiry;
decode reads the payload without any verification).
-/

/-! ## Data model -/

/-- A persisted user record, after the fields of `src/models/user.model.js`
as documented (`_id`, `name`, `email`, `password` (the stored hash),
`role`, `isActive`).  Identifiers are modelled as naturals. -/
structure StoredUser where
  id : Nat
  name : String
  email : String
  password : String
  role : String
  isActive : Bool
deriving DecidableEq

/-- The persisted collection of user records. -/
abbrev Store := List StoredUser

/-- Operational errors: `new AppError(message, statusCode)` from
src/utils/appError.js (constructor carries a message and an HTTP status). -/
structure AppError where
  message : String
  statusCode : Nat
deriving DecidableEq

/-! ## Password hashing (modelled) -/

/-- Modelled from the spec: src/models/user.model.js is absent from the
source tree.  Per the spec, a pre-write hook re-computes a one-way, salted
bcrypt hash (cost factor 10) whenever the password field is set or
changed.  The hash is modelled as an injective tagged encoding of the
plaintext; the model is deterministic (the salt is not modelled, which is
irrelevant to every claim below). -/
def hashPassword (plain : String) : String :=
  "$2b$10$" ++ plain

/-- Modelled from the spec: src/models/user.model.js is absent from the
source tree.  `user.comparePassword(candidate)` delegates the comparison
of a candidate plaintext against the stored hash to the hashing library
(never a direct plaintext comparison). -/
def comparePassword (candidate stored : String) : Bool :=
  decide (hashPassword candidate = stored)

/-! ## Repository (src/repositories/user.repository.js) -/

/-- `UserRepository.findById` : `User.findById(id)` — first record with the
given identifier, if any. -/
def findById (store : Store) (id : Nat) : Option StoredUser :=
  store.find? (fun u => decide (u.id = id))

/-- `UserRepository.findByEmail` : `User.findOne({ email }).select("+password")`
— first record with the given email, hash included. -/
def findByEmail (store : Store) (email : String) : Option StoredUser :=
  store.find? (fun u => decide (u.email = email))

/-- Persisting a modified document (`user.save()` / `findByIdAndUpdate`)
replaces the record with the matching identifier. -/
def saveUser (store : Store) (u : StoredUser) : Store :=
  store.map (fun v => if v.id = u.id then u else v)

/-! ## Token codec (jsonwebtoken, modelled; src/utils/jwt.js) -/

/-- The claims put into a token by `generateToken` : user id, email, role. -/
structure Claims where
  id : Nat
  email : String
  role : String
deriving DecidableEq

/-- The payload of a signed token: the claims plus the issued-at (`iat`)
and expiry (`exp`) fields that `jwt.sign` adds. -/
structure TokenPayload where
  id : Nat
  email : String
  role : String
  iat : Nat
  exp : Nat
deriving DecidableEq

/-- A token as produced by `jwt.sign`: a payload together with a
signature.  The signature is modelled abstractly as the pair of the
signing secret and the signed payload, so that it matches exactly when
verification is offered the same secret and an untampered payload. -/
structure Jwt where
  payload : TokenPayload
  sig : Nat × TokenPayload
deriving DecidableEq

/-- Failure kinds of `jwt.verify` (`error.name` in the library):
a structurally or cryptographically invalid token, or a validly signed
token whose expiry has elapsed. -/
inductive JwtError where
  | jsonWebTokenError
  | tokenExpiredError
deriving DecidableEq

/-- Model of `jwt.sign(payload, secret, { expiresIn })` at clock time
`now`: adds `iat = now` and `exp = now + expiresIn` and signs. -/
def jwtSign (c : Claims) (secret : Nat) (expiresIn : Nat) (now : Nat) : Jwt :=
  let p : TokenPayload :=
    { id := c.id, email := c.email, role := c.role, iat := now, exp := now + expiresIn }
  { payload := p, sig := (secret, p) }

/-- Model of `jwt.verify(token, secret)` at clock time `now`: the
signature is checked first (mismatch ⇒ `JsonWebTokenError`), then the
expiry (`now ≥ exp` ⇒ `TokenExpiredError`). -/
def jwtVerify (t : Jwt) (secret : Nat) (now : Nat) : Except JwtError TokenPayload :=
  if t.sig ≠ (secret, t.payload) then .error .jsonWebTokenError
  else if t.payload.exp ≤ now then .error .tokenExpiredError
  else .ok t.payload

/-- Model of `jwt.decode(token)`: returns the payload, looking neither at
the signature nor at the expiry, and taking no secret. -/
def jwtDecode (t : Jwt) : TokenPayload :=
  t.payload

/-- `generateToken(payload)` from src/utils/jwt.js: signs the claims with
`env.JWT_SECRET` and `expiresIn: env.JWT_EXPIRE`. -/
def generateToken (c : Claims) (secret : Nat) (expire : Nat) (now : Nat) : Jwt :=
  jwtSign c secret expire now

/-- `verifyToken(token)` from src/utils/jwt.js: delegates to `jwt.verify`
and maps `JsonWebTokenError` to `Error('Invalid token')` and
`TokenExpiredError` to `Error('Token expired')`. -/
def verifyToken (t : Jwt) (secret : Nat) (now : Nat) : Except String TokenPayload :=
  match jwtVerify t secret now with
  | .ok p => .ok p
  | .error .jsonWebTokenError => .error "Invalid token"
  | .error .tokenExpiredError => .error "Token expired"

/-- `decodeToken(token)` from src/utils/jwt.js: `jwt.decode(token)` —
no secret, no verification. -/
def decodeToken (t : Jwt) : TokenPayload :=
  jwtDecode t

/-! ## Serialization (modelled) -/

/-- Modelled from the spec: src/models/user.model.js is absent from the
source tree.  Its documented `toJSON` transform always deletes the
password field from any serialized user, regardless of whether the
in-memory document carries the hash.  The serialization is modelled as
the list of emitted (key, value) pairs. -/
def toJSON (u : StoredUser) : List (String × String) :=
  [("_id", toString u.id), ("name", u.name), ("email", u.email),
   ("role", u.role), ("isActive", toString u.isActive)]

/-- The set of keys appearing in a serialized record. -/
def jsonKeys (u : StoredUser) : List String :=
  (toJSON u).map Prod.fst

/-! ## Authentication service (src/services/auth.service.js) -/

/-- Registration input: name, email, password, optional role. -/
structure RegisterData where
  name : String
  email : String
  password : String
  role : Option String
deriving DecidableEq

/-- Modelled from the spec: record construction in
src/models/user.model.js is absent from the source tree.  `create` builds
the record with `role` defaulting to "user" and `isActive` defaulting to
`true`, and the pre-write hook stores the hash of the password.  Input
shape validation (email format, minimum password length) is a
pre-condition gate outside the core. -/
def createUser (store : Store) (data : RegisterData) (freshId : Nat) :
    Store × StoredUser :=
  let u : StoredUser :=
    { id := freshId, name := data.name, email := data.email,
      password := hashPassword data.password,
      role := data.role.getD "user", isActive := true }
  (store ++ [u], u)

/-- `AuthService.register(userData)`: rejects an email already present
(`AppError('Email already in use', 400)`), otherwise creates the record
and issues a token over the new identifier/email/role.  The resulting
store is returned alongside the outcome; a failing call leaves the store
as it was. -/
def register (store : Store) (data : RegisterData) (freshId : Nat)
    (secret : Nat) (expire : Nat) (now : Nat) :
    Store × Except AppError (StoredUser × Jwt) :=
  match findByEmail store data.email with
  | some _ => (store, .error ⟨"Email already in use", 400⟩)
  | none =>
    let (store2, user) := createUser store data freshId
    let token := generateToken ⟨user.id, user.email, user.role⟩ secret expire now
    (store2, .ok (user, token))

/-- `AuthService.login(email, password)`: looks the user up by email
(hash included); no user ⇒ `AppError('Invalid email or password', 401)`;
inactive user ⇒ the deactivation error; then the password is verified,
with a mismatch giving the same generic 401 as the missing user; on
success a token is issued. -/
def login (store : Store) (email : String) (password : String)
    (secret : Nat) (expire : Nat) (now : Nat) :
    Except AppError (StoredUser × Jwt) :=
  match findByEmail store email with
  | none => .error ⟨"Invalid email or password", 401⟩
  | some user =>
    if !user.isActive then
      .error ⟨"Your account has been deactivated. Please contact support.", 401⟩
    else if !comparePassword password user.password then
      .error ⟨"Invalid email or password", 401⟩
    else
      .ok (user, generateToken ⟨user.id, user.email, user.role⟩ secret expire now)

/-- `AuthService.getMe(userId)`: find by id, 404 when gone. -/
def getMe (store : Store) (userId : Nat) : Except AppError StoredUser :=
  match findById store userId with
  | none => .error ⟨"User not found", 404⟩
  | some user => .ok user

/-- `AuthService.updatePassword(userId, currentPassword, newPassword)`:
find by id (404 when gone); verify the current password against the
stored hash (`AppError('Current password is incorrect', 401)` on
mismatch, leaving the store untouched); otherwise set the password —
`user.save()` re-hashes via the pre-write hook — and issue a fresh token.
The resulting store is returned alongside the outcome. -/
def updatePassword (store : Store) (userId : Nat)
    (currentPassword newPassword : String)
    (secret : Nat) (expire : Nat) (now : Nat) :
    Store × Except AppError (StoredUser × Jwt) :=
  match findById store userId with
  | none => (store, .error ⟨"User not found", 404⟩)
  | some user =>
    if !comparePassword currentPassword user.password then
      (store, .error ⟨"Current password is incorrect", 401⟩)
    else
      let user2 : StoredUser := { user with password := hashPassword newPassword }
      let store2 := saveUser store user2
      let token := generateToken ⟨user2.id, user2.email, user2.role⟩ secret expire now
      (store2, .ok (user2, token))

/-! ## Request gate (src/middlewares/auth.js) -/

/-- The `Authorization` header, as the middleware consumes it: the raw
scheme word (the part before the first space) and, when present, the
second whitespace-separated part (`split(' ')[1]`), carrying the token. -/
structure AuthHeader where
  scheme : String
  token : Option Jwt

/-- The request context the middleware reads. -/
structure Request where
  authorization : Option AuthHeader

/-- `String.prototype.startsWith`, by recursion on the characters. -/
def charsStartWith : List Char → List Char → Bool
  | _, [] => true
  | [], _ :: _ => false
  | c :: cs, d :: ds => decide (c = d) && charsStartWith cs ds

/-- `s.startsWith(p)` on the embedding's strings. -/
def strStartsWith (s p : String) : Bool :=
  charsStartWith s.data p.data

/-- Step 1 of `requireAuth`: the token is taken from the header only when
the header is present and starts with `Bearer`. -/
def extractToken (req : Request) : Option Jwt :=
  match req.authorization with
  | some h => if strStartsWith h.scheme "Bearer" then h.token else none
  | none => none

/-- Outcome of a middleware run: either the request proceeds with the
resolved user attached to the context (`req.user`), or it fails with an
`AppError` passed to `next`. -/
inductive GateResult where
  | proceed (user : StoredUser)
  | failed (err : AppError)
deriving DecidableEq

/-- `requireAuth` from src/middlewares/auth.js: extract the bearer token
(missing ⇒ 401 not-logged-in); verify it (failure ⇒ 401 with the codec
error message); re-resolve the user by the id embedded in the token
(gone ⇒ 401 user-no-longer-exists); check `isActive` (inactive ⇒ 401
deactivated); otherwise attach the user and continue. -/
def requireAuth (store : Store) (req : Request) (secret : Nat) (now : Nat) :
    GateResult :=
  match extractToken req with
  | none => .failed ⟨"You are not logged in. Please log in to get access.", 401⟩
  | some t =>
    match verifyToken t secret now with
    | .error msg => .failed ⟨msg, 401⟩
    | .ok decoded =>
      match findById store decoded.id with
      | none => .failed ⟨"The user belonging to this token no longer exists.", 401⟩
      | some user =>
        if !user.isActive then
          .failed ⟨"Your account has been deactivated. Please contact support.", 401⟩
        else
          .proceed user

/-- `requireRole(...roles)` from src/middlewares/auth.js, applied to the
`req.user` attached (or not) by the upstream middleware: no user ⇒ 500
configuration error; role not in the allowed list ⇒ 403; otherwise the
request proceeds. -/
def requireRole (roles : List String) (reqUser : Option StoredUser) : GateResult :=
  match reqUser with
  | none => .failed ⟨"User not authenticated. Use requireAuth middleware first.", 500⟩
  | some user =>
    if !roles.contains user.role then
      .failed ⟨"You do not have permission to perform this action.", 403⟩
    else
      .proceed user

/-! ## Generic user update (src/services/user.service.js) -/

/-- A partial update payload for the generic update path; an absent field
is not written. -/
structure UpdateData where
  name : Option String := none
  email : Option String := none
  role : Option String := none
  isActive : Option Bool := none
  password : Option String := none
deriving DecidableEq

/-- JavaScript truthiness of `updateData.password`: an absent field and
the empty string are both falsy. -/
def truthy : Option String → Bool
  | none => false
  | some s => decide (s ≠ "")

/-- Applying an update to a record sets each provided field; a write of
the password field goes through the pre-write hash hook (modelled from
the spec, src/models/user.model.js being absent). -/
def applyUpdate (u : StoredUser) (d : UpdateData) : StoredUser :=
  { u with
    name := d.name.getD u.name,
    email := d.email.getD u.email,
    role := d.role.getD u.role,
    isActive := d.isActive.getD u.isActive,
    password := match d.password with
      | some p => hashPassword p
      | none => u.password }

/-- Membership of an optionally supplied role in the closed role enum. -/
def roleOk : Option String → Bool
  | some r => decide (r = "user" ∨ r = "admin" ∨ r = "moderator")
  | none => true

/-- Modelled from the spec: the schema validators of
src/models/user.model.js are absent from the source tree.  The
repository's update passes `runValidators: true`, and the spec's
constraints on writes are a minimum password length (6) and the closed
role enum; an update payload violating either is rejected. -/
def validateUpdate (d : UpdateData) : Bool :=
  (match d.password with
    | some p => decide (6 ≤ p.length)
    | none => true)
  && roleOk d.role

/-- `UserRepository.update(id, updateData)` :
`User.findByIdAndUpdate(id, updateData, { new: true, runValidators: true })`
— `none` when the id resolves to no record, a validation error when the
payload violates the modelled schema constraints, otherwise the applied
update persisted and the updated record returned. -/
def repoUpdate (store : Store) (id : Nat) (d : UpdateData) :
    Store × Except AppError (Option StoredUser) :=
  match findById store id with
  | none => (store, .ok none)
  | some u =>
    if validateUpdate d then
      let u2 := applyUpdate u d
      (saveUser store u2, .ok (some u2))
    else
      (store, .error ⟨"Validation failed", 400⟩)

/-- `UserService.updateUser(id, updateData)`: deletes the password field
from the payload when it is truthy (`if (updateData.password) delete
updateData.password`), delegates to the repository update, and maps a
missing record to `AppError('User not found', 404)`. -/
def updateUser (store : Store) (id : Nat) (updateData : UpdateData) :
    Store × Except AppError StoredUser :=
  let d := if truthy updateData.password then { updateData with password := none }
           else updateData
  match repoUpdate store id d with
  | (s, .error e) => (s, .error e)
  | (s, .ok none) => (s, .error ⟨"User not found", 404⟩)
  | (s, .ok (some u)) => (s, .ok u)

/-! ## Helper lemmas -/

lemma hashPassword_inj {a b : String} (h : hashPassword a = hashPassword b) : a = b := by
  simp only [hashPassword] at h
  have hd := congrArg String.data h
  simp [String.data_append] at hd
  exact String.ext hd

lemma comparePassword_hash_self (p : String) : comparePassword p (hashPassword p) = true := by
  simp [comparePassword]

lemma comparePassword_hash_ne {a b : String} (h : a ≠ b) :
    comparePassword a (hashPassword b) = false := by
  simp only [comparePassword, decide_eq_false_iff_not]
  intro he
  exact h (hashPassword_inj he)

/-! ## Concrete records used by the witnesses -/

def demoUser : StoredUser :=
  { id := 1, name := "Test User", email := "test@example.com",
    password := hashPassword "password123", role := "user", isActive := true }

def demoAdmin : StoredUser :=
  { id := 2, name := "Admin", email := "admin@example.com",
    password := hashPassword "adminpass1", role := "admin", isActive := true }

def demoInactive : StoredUser :=
  { id := 3, name := "Off", email := "off@example.com",
    password := hashPassword "password123", role := "user", isActive := false }

def demoStore : Store := [demoUser, demoAdmin, demoInactive]

def demoClaims : Claims := { id := 1, email := "test@example.com", role := "user" }

def demoPayload : TokenPayload :=
  { id := 1, email := "test@example.com", role := "user", iat := 0, exp := 3600 }

def demoBadJwt : Jwt := { payload := demoPayload, sig := (999, demoPayload) }

/-! ## Claims -/

/-- C6: for every role-gated request, `requireRole` fails with a 500
configuration error when no user is attached, fails `Forbidden` (403)
when the attached user's role is not in the allowed set, and lets the
request proceed when it is. -/
theorem requireRole_gating (roles : List String) (user : StoredUser) :
    requireRole roles none =
      .failed ⟨"User not authenticated. Use requireAuth middleware first.", 500⟩
    ∧ (roles.contains user.role = false →
        requireRole roles (some user) =
          .failed ⟨"You do not have permission to perform this action.", 403⟩)
    ∧ (roles.contains user.role = true →
        requireRole roles (some user) = .proceed user) := by
  refine ⟨rfl, ?_, ?_⟩ <;> intro h <;> simp [requireRole] <;> simpa using h

/-- Witness for C6: `requireRole ['admin']` fails 500 with no user,
rejects a role-`user` caller with 403, and accepts a role-`admin`
caller. -/
theorem requireRole_gating_witness :
    (["admin"].contains demoUser.role = false
      ∧ requireRole ["admin"] none =
          .failed ⟨"User not authenticated. Use requireAuth middleware first.", 500⟩
      ∧ requireRole ["admin"] (some demoUser) =
          .failed ⟨"You do not have permission to perform this action.", 403⟩)
    ∧ (["admin"].contains demoAdmin.role = true
      ∧ requireRole ["admin"] (some demoAdmin) = .proceed demoAdmin) :=
  ⟨⟨by decide, (requireRole_gating ["admin"] demoUser).1,
    (requireRole_gating ["admin"] demoUser).2.1 (by decide)⟩,
   ⟨by decide, (requireRole_gating ["admin"] demoAdmin).2.2 (by decide)⟩⟩

/-- C7: a login against an existing but deactivated account fails with
the deactivation error (401), and the outcome does not depend on the
supplied password — the active-status check precedes password
verification. -/
theorem login_deactivated_precedes_password (store : Store) (email pw pw2 : String)
    (u : StoredUser) (secret expire now : Nat)
    (hfind : findByEmail store email = some u) (hact : u.isActive = false) :
    login store email pw secret expire now =
      .error ⟨"Your account has been deactivated. Please contact support.", 401⟩
    ∧ login store email pw secret expire now = login store email pw2 secret expire now := by
  constructor <;> simp [login, hfind, hact]

/-- Witness for C7: the deactivated demo account fails with the
deactivation error both for its correct password and for a wrong one. -/
theorem login_deactivated_precedes_password_witness :
    findByEmail demoStore "off@example.com" = some demoInactive
    ∧ demoInactive.isActive = false
    ∧ (login demoStore "off@example.com" "password123" 7 3600 0 =
        .error ⟨"Your account has been deactivated. Please contact support.", 401⟩
      ∧ login demoStore "off@example.com" "password123" 7 3600 0 =
          login demoStore "off@example.com" "totallywrong" 7 3600 0) :=
  ⟨by decide, by decide,
   login_deactivated_precedes_password demoStore "off@example.com" "password123"
     "totallywrong" demoInactive 7 3600 0 (by decide) (by decide)⟩

/-- C8: `verifyToken` classifies failures into two kinds — a token whose
signature does not check fails as `Invalid token`, a validly-signed token
whose expiry has elapsed fails as `Token expired`; in particular a token
issued with a 1-second TTL and verified 2 seconds later fails as expired,
not as malformed. -/
theorem verifyToken_classifies_failures (t : Jwt) (secret now : Nat) (c : Claims) (t0 : Nat) :
    (t.sig ≠ (secret, t.payload) → verifyToken t secret now = .error "Invalid token")
    ∧ (t.sig = (secret, t.payload) → t.payload.exp ≤ now →
        verifyToken t secret now = .error "Token expired")
    ∧ verifyToken (generateToken c secret 1 t0) secret (t0 + 2) = .error "Token expired" := by
  refine ⟨?_, ?_, ?_⟩
  · intro h
    simp [verifyToken, jwtVerify, h]
  · intro h1 h2
    simp [verifyToken, jwtVerify, h1, h2]
  · simp [verifyToken, jwtVerify, generateToken, jwtSign]

/-- Witness for C8: a tampered-signature token fails as invalid; the
1-second-TTL token issued at time 0 and verified at time 2 fails as
expired. -/
theorem verifyToken_classifies_failures_witness :
    (demoBadJwt.sig ≠ (7, demoBadJwt.payload)
      ∧ verifyToken demoBadJwt 7 0 = .error "Invalid token")
    ∧ ((generateToken demoClaims 7 1 0).sig =
          (7, (generateToken demoClaims 7 1 0).payload)
      ∧ (generateToken demoClaims 7 1 0).payload.exp ≤ 2
      ∧ verifyToken (generateToken demoClaims 7 1 0) 7 2 = .error "Token expired") :=
  ⟨⟨by decide, (verifyToken_classifies_failures demoBadJwt 7 0 demoClaims 0).1 (by decide)⟩,
   ⟨by decide, by decide,
    (verifyToken_classifies_failures (generateToken demoClaims 7 1 0) 7 2 demoClaims 0).2.1
      (by decide) (by decide)⟩⟩

/-- C10: decoding an issued token returns the input claims with the
issued-at and expiry fields added, and `decodeToken` takes no secret and
reads the payload without looking at the signature. -/
theorem decodeToken_roundtrip (c : Claims) (secret expire now : Nat)
    (p : TokenPayload) (s1 s2 : Nat × TokenPayload) :
    decodeToken (generateToken c secret expire now) =
      { id := c.id, email := c.email, role := c.role, iat := now, exp := now + expire }
    ∧ decodeToken { payload := p, sig := s1 } = decodeToken { payload := p, sig := s2 } :=
  ⟨rfl, rfl⟩

def demoGhostTok : Jwt := generateToken { id := 99, email := "ghost@example.com", role := "user" } 7 3600 0

def demoGhostReq : Request := { authorization := some { scheme := "Bearer", token := some demoGhostTok } }

/-- C5: a request carrying a token that verifies but whose embedded user
identifier no longer resolves to a record fails `requireAuth` with the
user-gone error (401), not with the not-logged-in error — the user is
re-resolved from the current store state. -/
theorem requireAuth_deleted_user_gone (store : Store) (req : Request)
    (secret now : Nat) (t : Jwt) (decoded : TokenPayload)
    (hx : extractToken req = some t)
    (hv : verifyToken t secret now = .ok decoded)
    (hg : findById store decoded.id = none) :
    requireAuth store req secret now =
      .failed ⟨"The user belonging to this token no longer exists.", 401⟩
    ∧ requireAuth store req secret now ≠
      .failed ⟨"You are not logged in. Please log in to get access.", 401⟩ := by
  have hmain : requireAuth store req secret now =
      .failed ⟨"The user belonging to this token no longer exists.", 401⟩ := by
    simp [requireAuth, hx, hv, hg]
  refine ⟨hmain, ?_⟩
  rw [hmain]
  decide

/-- Witness for C5: a validly signed, unexpired token for identifier 99
presented against a store holding no record 99 fails with the user-gone
error. -/
theorem requireAuth_deleted_user_gone_witness :
    extractToken demoGhostReq = some demoGhostTok
    ∧ verifyToken demoGhostTok 7 1 = .ok demoGhostTok.payload
    ∧ findById demoStore demoGhostTok.payload.id = none
    ∧ (requireAuth demoStore demoGhostReq 7 1 =
        .failed ⟨"The user belonging to this token no longer exists.", 401⟩
      ∧ requireAuth demoStore demoGhostReq 7 1 ≠
        .failed ⟨"You are not logged in. Please log in to get access.", 401⟩) :=
  ⟨by decide, by rfl, by decide,
   requireAuth_deleted_user_gone demoStore demoGhostReq 7 1 demoGhostTok
     demoGhostTok.payload (by decide) (by rfl) (by decide)⟩

/-- C2: for a registered active account with a non-matching password and
for an unregistered email with any password, login fails with the same
error message and status (401) — the two outcomes are identical. -/
theorem login_enumeration_resistance (store : Store) (e1 p1 e2 p2 : String)
    (u : StoredUser) (secret expire now : Nat)
    (h1 : findByEmail store e1 = some u)
    (hact : u.isActive = true)
    (hpw : comparePassword p1 u.password = false)
    (h2 : findByEmail store e2 = none) :
    login store e1 p1 secret expire now = .error ⟨"Invalid email or password", 401⟩
    ∧ login store e2 p2 secret expire now = .error ⟨"Invalid email or password", 401⟩
    ∧ login store e1 p1 secret expire now = login store e2 p2 secret expire now := by
  have ha : login store e1 p1 secret expire now =
      .error ⟨"Invalid email or password", 401⟩ := by
    simp [login, h1, hact, hpw]
  have hb : login store e2 p2 secret expire now =
      .error ⟨"Invalid email or password", 401⟩ := by
    simp [login, h2]
  exact ⟨ha, hb, by rw [ha, hb]⟩

/-- Witness for C2: a wrong password for the registered demo account and
an arbitrary password for an unregistered email give the identical
error. -/
theorem login_enumeration_resistance_witness :
    findByEmail demoStore "test@example.com" = some demoUser
    ∧ demoUser.isActive = true
    ∧ comparePassword "wrongpass9" demoUser.password = false
    ∧ findByEmail demoStore "nobody@example.com" = none
    ∧ (login demoStore "test@example.com" "wrongpass9" 7 3600 0 =
        .error ⟨"Invalid email or password", 401⟩
      ∧ login demoStore "nobody@example.com" "anypassword" 7 3600 0 =
        .error ⟨"Invalid email or password", 401⟩
      ∧ login demoStore "test@example.com" "wrongpass9" 7 3600 0 =
        login demoStore "nobody@example.com" "anypassword" 7 3600 0) :=
  ⟨by decide, by decide, by decide, by decide,
   login_enumeration_resistance demoStore "test@example.com" "wrongpass9"
     "nobody@example.com" "anypassword" demoUser 7 3600 0
     (by decide) (by decide) (by decide) (by decide)⟩

/-- C3: registering an email already present in the store fails with
`Email already in use` (400) and returns the store unchanged — no second
record with that email is created. -/
theorem register_duplicate_email_rejected (store : Store) (data : RegisterData)
    (freshId secret expire now : Nat)
    (h : ∃ u ∈ store, u.email = data.email) :
    register store data freshId secret expire now =
      (store, .error ⟨"Email already in use", 400⟩) := by
  have hsome : (findByEmail store data.email).isSome := by
    unfold findByEmail
    rw [List.find?_isSome]
    obtain ⟨u, hu, he⟩ := h
    exact ⟨u, hu, by simp [he]⟩
  obtain ⟨v, hv⟩ := Option.isSome_iff_exists.mp hsome
  simp [register, hv]

/-- Witness for C3: re-registering the demo account's email fails with
the duplicate-email error and leaves the store as it was. -/
theorem register_duplicate_email_rejected_witness :
    (∃ u ∈ demoStore, u.email = "test@example.com")
    ∧ register demoStore ⟨"Other", "test@example.com", "password456", none⟩ 42 7 3600 0 =
        (demoStore, .error ⟨"Email already in use", 400⟩) :=
  ⟨by decide,
   register_duplicate_email_rejected demoStore
     ⟨"Other", "test@example.com", "password456", none⟩ 42 7 3600 0 (by decide)⟩

def demoReg : RegisterData := ⟨"A", "a@x.com", "secret1", none⟩

def demoRegUser : StoredUser :=
  { id := 10, name := "A", email := "a@x.com",
    password := hashPassword "secret1", role := "user", isActive := true }

/-- C1: any serialization of a user record contains no password key; in
particular the user objects returned by `register` and by `login` — both
fetched with the stored hash present in memory — serialize without a
password field. -/
theorem serialization_omits_password (u : StoredUser) (store : Store)
    (data : RegisterData) (freshId secret expire now : Nat) (email pw : String) :
    "password" ∉ jsonKeys u
    ∧ (∀ store2 ru tok,
        register store data freshId secret expire now = (store2, .ok (ru, tok)) →
        "password" ∉ jsonKeys ru)
    ∧ (∀ ru tok,
        login store email pw secret expire now = .ok (ru, tok) →
        "password" ∉ jsonKeys ru) := by
  refine ⟨?_, fun _ ru _ _ => ?_, fun ru _ _ => ?_⟩ <;> simp [jsonKeys, toJSON]

lemma findById_eq_id {store : Store} {i : Nat} {u : StoredUser}
    (h : findById store i = some u) : u.id = i := by
  unfold findById at h
  have hp := List.find?_some h
  simpa using hp

/-- Saving a record with the same id and email as the one both lookups
return makes the email lookup return the saved record. -/
lemma findByEmail_saveUser (u u2 : StoredUser) (hid2 : u2.id = u.id)
    (hem2 : u2.email = u.email) :
    ∀ store : Store, findById store u.id = some u →
    findByEmail store u.email = some u →
    findByEmail (saveUser store u2) u.email = some u2 := by
  intro store
  induction store with
  | nil =>
    intro hid _
    simp [findById, List.find?] at hid
  | cons v rest ih =>
    intro hid hem
    by_cases hv : v.id = u.id
    · have hvu : v = u := by
        unfold findById at hid
        simpa [List.find?, hv] using hid
      subst hvu
      simp [saveUser, findByEmail, List.find?, hid2, hem2]
    · have hve : ¬ v.email = u.email := by
        intro he
        have hvu : v = u := by
          unfold findByEmail at hem
          simpa [List.find?, he] using hem
        exact hv (by rw [hvu])
      have hidr : findById rest u.id = some u := by
        unfold findById at hid ⊢
        simpa [List.find?, hv] using hid
      have hemr : findByEmail rest u.email = some u := by
        unfold findByEmail at hem ⊢
        simpa [List.find?, hve] using hem
      have hv2 : ¬ v.id = u2.id := by
        rw [hid2]
        exact hv
      have hgoal := ih hidr hemr
      unfold findByEmail saveUser at hgoal ⊢
      simpa [List.find?, hv2, hve] using hgoal

/-- C4: a password update with a non-verifying current password fails
with the incorrect-password error (401) and leaves the store unchanged;
with a verifying current password the new password is written re-hashed
(so a subsequent login with the old password fails and with the new
password succeeds) and a fresh token, distinct from any token minted at
a different time, is returned. -/
theorem updatePassword_behaviour (store : Store) (userId : Nat) (cur new : String)
    (user : StoredUser) (secret expire now now3 : Nat)
    (hfind : findById store userId = some user) :
    (comparePassword cur user.password = false →
      updatePassword store userId cur new secret expire now =
        (store, .error ⟨"Current password is incorrect", 401⟩))
    ∧ (comparePassword cur user.password = true →
       findByEmail store user.email = some user →
       user.isActive = true →
       cur ≠ new →
        updatePassword store userId cur new secret expire now =
          (saveUser store { user with password := hashPassword new },
           .ok ({ user with password := hashPassword new },
                generateToken ⟨user.id, user.email, user.role⟩ secret expire now))
        ∧ login (saveUser store { user with password := hashPassword new })
            user.email cur secret expire now3 =
            .error ⟨"Invalid email or password", 401⟩
        ∧ login (saveUser store { user with password := hashPassword new })
            user.email new secret expire now3 =
            .ok ({ user with password := hashPassword new },
                 generateToken ⟨user.id, user.email, user.role⟩ secret expire now3)
        ∧ ∀ now0, now0 ≠ now →
            generateToken ⟨user.id, user.email, user.role⟩ secret expire now ≠
            generateToken ⟨user.id, user.email, user.role⟩ secret expire now0) := by
  constructor
  · intro h
    simp [updatePassword, hfind, h]
  · intro hcmp hem hact hne
    have hid : user.id = userId := findById_eq_id hfind
    have hfind2 : findById store user.id = some user := by
      rw [hid]
      exact hfind
    have hsaved : findByEmail (saveUser store { user with password := hashPassword new })
        user.email = some { user with password := hashPassword new } :=
      findByEmail_saveUser user { user with password := hashPassword new }
        rfl rfl store hfind2 hem
    have hc1 : comparePassword cur (hashPassword new) = false :=
      comparePassword_hash_ne hne
    have hc2 : comparePassword new (hashPassword new) = true :=
      comparePassword_hash_self new
    refine ⟨?_, ?_, ?_, ?_⟩
    · simp [updatePassword, hfind, hcmp]
    · simp only [login]
      rw [hsaved]
      simp [hact, hc1]
    · simp only [login]
      rw [hsaved]
      simp [hact, hc2]
    · intro now0 h0 heq
      exact h0 (congrArg (fun t => t.payload.iat) heq).symm

/-- Witness for C4: updating the demo account's password with the
correct current password writes the re-hashed new password; the old
password then fails login, the new one succeeds, and the fresh token
differs from one minted at another time. -/
theorem updatePassword_behaviour_witness :
    findById demoStore 1 = some demoUser
    ∧ comparePassword "password123" demoUser.password = true
    ∧ findByEmail demoStore demoUser.email = some demoUser
    ∧ demoUser.isActive = true
    ∧ ("password123" : String) ≠ "newpassword456"
    ∧ updatePassword demoStore 1 "password123" "newpassword456" 7 3600 5 =
        (saveUser demoStore { demoUser with password := hashPassword "newpassword456" },
         .ok ({ demoUser with password := hashPassword "newpassword456" },
              generateToken ⟨demoUser.id, demoUser.email, demoUser.role⟩ 7 3600 5))
    ∧ login (saveUser demoStore { demoUser with password := hashPassword "newpassword456" })
        demoUser.email "password123" 7 3600 6 = .error ⟨"Invalid email or password", 401⟩
    ∧ login (saveUser demoStore { demoUser with password := hashPassword "newpassword456" })
        demoUser.email "newpassword456" 7 3600 6 =
        .ok ({ demoUser with password := hashPassword "newpassword456" },
             generateToken ⟨demoUser.id, demoUser.email, demoUser.role⟩ 7 3600 6)
    ∧ generateToken ⟨demoUser.id, demoUser.email, demoUser.role⟩ 7 3600 5 ≠
        generateToken ⟨demoUser.id, demoUser.email, demoUser.role⟩ 7 3600 0 := by
  have W := (updatePassword_behaviour demoStore 1 "password123" "newpassword456"
      demoUser 7 3600 5 6 (by decide)).2 (by decide) (by decide) (by decide) (by decide)
  exact ⟨by decide, by decide, by decide, by decide, by decide,
    W.1, W.2.1, W.2.2.1, W.2.2.2 0 (by decide)⟩

def cexUser : StoredUser :=
  { id := 1, name := "A", email := "a@x.com",
    password := hashPassword "oldpass1", role := "user", isActive := true }

def cexStore : Store := [cexUser]

def cexPayload : UpdateData := { name := some "X", password := some "" }

/-- Counterexample to C9 as stated: a payload that contains a password
key with the (falsy) empty-string value evades the truthiness strip in
`updateUser`, is forwarded to the repository update, and is rejected
there — so the other supplied field (`name := "X"`) is NOT updated,
refuting "all other supplied fields are updated". -/
theorem updateUser_password_key_counterexample :
    cexPayload.password = some ""
    ∧ cexPayload.name = some "X"
    ∧ updateUser cexStore 1 cexPayload = (cexStore, .error ⟨"Validation failed", 400⟩)
    ∧ (findById cexStore 1).map StoredUser.name = some "A" :=
  ⟨rfl, rfl, rfl, rfl⟩

/-- C9 (amended): for every payload whose password value is absent or
truthy (non-empty), the generic update path never writes the password —
the stored hash is unchanged — and all other supplied fields are
updated (for a role passing the closed-enum validation).  A payload
carrying the password key with the empty-string value is not stripped
and aborts the update instead. -/
theorem updateUser_password_stripped_amended (store : Store) (id : Nat)
    (d : UpdateData) (u : StoredUser)
    (hfind : findById store id = some u)
    (hpw : d.password = none ∨ truthy d.password = true)
    (hrole : roleOk d.role = true) :
    updateUser store id d =
      (saveUser store
        { id := u.id, name := d.name.getD u.name, email := d.email.getD u.email,
          password := u.password, role := d.role.getD u.role,
          isActive := d.isActive.getD u.isActive },
       .ok { id := u.id, name := d.name.getD u.name, email := d.email.getD u.email,
             password := u.password, role := d.role.getD u.role,
             isActive := d.isActive.getD u.isActive }) := by
  rcases hpw with h | h
  · simp [updateUser, truthy, h, repoUpdate, hfind, validateUpdate, hrole, applyUpdate]
  · simp [updateUser, h, repoUpdate, hfind, validateUpdate, hrole, applyUpdate]

def wPayload : UpdateData := { name := some "X", password := some "goodpass1" }

/-- Witness for the amended C9: a payload with a truthy password and a
new name leaves the stored hash unchanged and updates the name. -/
theorem updateUser_password_stripped_amended_witness :
    findById cexStore 1 = some cexUser
    ∧ (wPayload.password = none ∨ truthy wPayload.password = true)
    ∧ roleOk wPayload.role = true
    ∧ updateUser cexStore 1 wPayload =
        (saveUser cexStore
          { id := cexUser.id, name := wPayload.name.getD cexUser.name,
            email := wPayload.email.getD cexUser.email,
            password := cexUser.password, role := wPayload.role.getD cexUser.role,
            isActive := wPayload.isActive.getD cexUser.isActive },
         .ok { id := cexUser.id, name := wPayload.name.getD cexUser.name,
               email := wPayload.email.getD cexUser.email,
               password := cexUser.password, role := wPayload.role.getD cexUser.role,
               isActive := wPayload.isActive.getD cexUser.isActive }) :=
  ⟨by decide, Or.inr (by decide), by decide,
   updateUser_password_stripped_amended cexStore 1 wPayload cexUser
     (by decide) (Or.inr (by decide)) (by decide)⟩

/-- Witness for C1: a concrete registration and a concrete login both
return users whose serialization carries no password key. -/
theorem serialization_omits_password_witness :
    register [] demoReg 10 7 3600 0 =
      ([demoRegUser], .ok (demoRegUser, generateToken ⟨10, "a@x.com", "user"⟩ 7 3600 0))
    ∧ "password" ∉ jsonKeys demoRegUser
    ∧ login demoStore "test@example.com" "password123" 7 3600 0 =
        .ok (demoUser, generateToken ⟨1, "test@example.com", "user"⟩ 7 3600 0)
    ∧ "password" ∉ jsonKeys demoUser :=
  ⟨by rfl,
   (serialization_omits_password demoRegUser [] demoReg 10 7 3600 0
     "test@example.com" "password123").2.1
     [demoRegUser] demoRegUser (generateToken ⟨10, "a@x.com", "user"⟩ 7 3600 0) (by rfl),
   by rfl,
   (serialization_omits_password demoUser demoStore demoReg 10 7 3600 0
     "test@example.com" "password123").2.2
     demoUser (generateToken ⟨1, "test@example.com", "user"⟩ 7 3600 0) (by rfl)⟩
